import Mathlib

/-!
Verification development for the user-validation plugin.

The plugin keeps, on a user-like document, a list of validation entries
(one per attribute kind: email, phone, identity, address) and exposes:
  - generateValidationCode / calculateExpiry / createValidation (src/utils.ts),
  - isValidated, createValidationRequest, validateCode, and a pre-save
    auto-validation hook (the plugin body).

The embedding below translates that TypeScript directly:
  - timestamps are `Int` milliseconds (JS `Date.getTime()`),
  - the process-wide random source is an explicit digit stream
    `rand : Nat -> Fin 10` (each `Math.floor(Math.random() * 10)` draw),
  - JS `x || fallback` on numeric options is `jsOrInt` (falls back on
    `undefined` and on `0`, keeps every other value, negatives included),
  - in-place mutation of the entry found by `Array.prototype.find` is
    rendered as rebuilding the list with the first matching element
    replaced, which is observationally the same state.
-/

namespace UserValidation

/-- Per-request override options (`ValidationOptions` in types.ts). -/
structure ValidationOptions where
  expiresIn : Option Int := none
  codeLength : Option Int := none
  maxTries : Option Int := none
  maxResends : Option Int := none
deriving Repr, DecidableEq

/-- One validation entry (`Validation` in types.ts).  `metadata` is an
opaque caller-attached map, modelled as an association list. -/
structure Validation where
  type : String
  validated : Bool
  code : String
  resends : Nat
  created : Int
  last_try : Option Int := none
  tries : Nat
  expire_at : Option Int := none
  metadata : Option (List (String × String)) := none
deriving Repr, DecidableEq

/-- Plugin configuration (`ValidationConfig` in types.ts). -/
structure ValidationConfig where
  ENABLED : Bool
  EMAIL_VALIDATION : Bool
  PHONE_VALIDATION : Bool
  IDENTITY_VALIDATION : Bool
  ADDRESS_VALIDATION : Bool
  DEFAULT_CODE_LENGTH : Int
  DEFAULT_EXPIRY : Int
  MAX_TRIES : Int
  MAX_RESENDS : Int
deriving Repr, DecidableEq

/-- `defaultConfig` from config.ts. -/
def defaultConfig : ValidationConfig :=
  { ENABLED := true
    EMAIL_VALIDATION := true
    PHONE_VALIDATION := true
    IDENTITY_VALIDATION := true
    ADDRESS_VALIDATION := true
    DEFAULT_CODE_LENGTH := 6
    DEFAULT_EXPIRY := 3600
    MAX_TRIES := 5
    MAX_RESENDS := 3 }

/-- The decimal digit character for one random draw. -/
def digitChar (d : Fin 10) : Char := Char.ofNat (48 + d.val)

/-- `generateValidationCode` from utils.ts: `for (let i = 0; i < length; i++)`
append one random decimal digit.  A non-positive `length` runs the loop zero
times, so the result is the empty string. -/
def generateValidationCode (rand : Nat → Fin 10) (length : Int) : String :=
  String.mk ((List.range length.toNat).map (fun i => digitChar (rand i)))

/-- `calculateExpiry` from utils.ts: `now.getTime() + expiresIn * 1000`. -/
def calculateExpiry (now : Int) (expiresIn : Int) : Int :=
  now + expiresIn * 1000

/-- JS `v || fallback` on an optional number: `undefined` and `0` are falsy
and select the fallback; any other number (negatives included) is kept. -/
def jsOrInt (v : Option Int) (fallback : Int) : Int :=
  match v with
  | some x => if x = 0 then fallback else x
  | none => fallback

/-- `createValidation` from utils.ts.  Note that the fallbacks read the
module-level `defaultConfig`, not a merged plugin configuration. -/
def createValidation (rand : Nat → Fin 10) (now : Int) (type : String)
    (options : Option ValidationOptions) (validated : Bool) : Validation :=
  let codeLength := jsOrInt (options.bind (fun o => o.codeLength))
    defaultConfig.DEFAULT_CODE_LENGTH
  let expiresIn := jsOrInt (options.bind (fun o => o.expiresIn))
    defaultConfig.DEFAULT_EXPIRY
  { type := type
    validated := validated
    created := now
    code := if validated then "" else generateValidationCode rand codeLength
    resends := 0
    tries := 0
    expire_at := if validated then none else some (calculateExpiry now expiresIn)
    last_try := none
    metadata := none }

/-- `isValidated` method: `validations?.find(v => v.type === type)?.validated ?? false`. -/
def isValidated (c : List Validation) (type : String) : Bool :=
  match c.find? (fun v => v.type == type) with
  | some v => v.validated
  | none => false

/-- The `findIndex` + `splice(i, 1)` step of `createValidationRequest`:
remove the first entry of the given type, if any. -/
def removeFirstOfType (type : String) : List Validation → List Validation
  | [] => []
  | v :: rest => if v.type == type then rest else v :: removeFirstOfType type rest

/-- `createValidationRequest` method: drop the first existing entry of this
type, build a fresh unvalidated entry, push it, and return it. -/
def createValidationRequest (rand : Nat → Fin 10) (now : Int) (type : String)
    (options : Option ValidationOptions) (c : List Validation) :
    Validation × List Validation :=
  let newValidation := createValidation rand now type options false
  (newValidation, removeFirstOfType type c ++ [newValidation])

/-- The expiry test in `validateCode`:
`validation.expire_at && validation.expire_at < new Date()`.
A missing `expire_at` is falsy, a present one is compared strictly. -/
def isExpired (expire_at : Option Int) (now : Int) : Bool :=
  match expire_at with
  | some t => decide (t < now)
  | none => false

/-- The body of `validateCode` once the entry for the requested type has been
found, following the source order exactly: already-validated short-circuit,
expiry check, `tries += 1` and `last_try = now`, strict `tries > MAX_TRIES`
check, then code comparison which sets `validated` on success. -/
def validateEntryStep (cfg : ValidationConfig) (now : Int) (code : String)
    (v : Validation) : Bool × Validation :=
  if v.validated then (true, v)
  else if isExpired v.expire_at now then (false, v)
  else
    let bumped := { v with tries := v.tries + 1, last_try := some now }
    if (bumped.tries : Int) > cfg.MAX_TRIES then (false, bumped)
    else if v.code == code then (true, { bumped with validated := true })
    else (false, bumped)

/-- `validateCode` method: find the first entry of the requested type
(`Array.prototype.find`), run the state machine on it in place, and return
the boolean outcome together with the updated collection.  A missing entry
returns `false` and leaves the collection untouched. -/
def validateCode (cfg : ValidationConfig) (now : Int) (type code : String) :
    List Validation → Bool × List Validation
  | [] => (false, [])
  | v :: rest =>
    if v.type == type then
      let r := validateEntryStep cfg now code v
      (r.1, r.2 :: rest)
    else
      let r := validateCode cfg now type code rest
      (r.1, v :: r.2)

/-- In-place `validated = true` on the first entry of the given type
(the `else if (!entry.validated)` branch of the pre-save hook). -/
def setValidatedFirst (type : String) : List Validation → List Validation
  | [] => []
  | v :: rest =>
    if v.type == type then { v with validated := true } :: rest
    else v :: setValidatedFirst type rest

/-- One per-kind block of the pre-save hook: when the kind's
`<KIND>_VALIDATION` flag is false, either push a pre-validated entry (none
exists yet) or flip the existing unvalidated entry, recording `hasChanges`;
when the flag is true the block does nothing. -/
def autoValidateKind (rand : Nat → Fin 10) (now : Int) (requireValidation : Bool)
    (kind : String) (st : List Validation × Bool) : List Validation × Bool :=
  if requireValidation then st
  else
    match st.1.find? (fun v => v.type == kind) with
    | none => (st.1 ++ [createValidation rand now kind none true], true)
    | some v => if v.validated then st else (setValidatedFirst kind st.1, true)

/-- The new-document branch of the `pre('save')` hook: guarded by
`pluginConfig.ENABLED`, then the four per-kind auto-validation blocks run in
source order (email, phone, identity, address), threading `hasChanges`. -/
def applyCreationPolicy (cfg : ValidationConfig) (rand : Nat → Fin 10) (now : Int)
    (c : List Validation) : List Validation × Bool :=
  if cfg.ENABLED then
    autoValidateKind rand now cfg.ADDRESS_VALIDATION "address"
      (autoValidateKind rand now cfg.IDENTITY_VALIDATION "identity"
        (autoValidateKind rand now cfg.PHONE_VALIDATION "phone"
          (autoValidateKind rand now cfg.EMAIL_VALIDATION "email" (c, false))))
  else (c, false)

/-- The closed enumeration of attribute kinds (`ValidationType`). -/
def validationKinds : List String := ["email", "phone", "identity", "address"]

/-- The per-kind `<KIND>_VALIDATION` flag of a configuration, looked up by
kind name (used only to state properties uniformly over the four kinds). -/
def kindFlag (cfg : ValidationConfig) (k : String) : Bool :=
  if k == "email" then cfg.EMAIL_VALIDATION
  else if k == "phone" then cfg.PHONE_VALIDATION
  else if k == "identity" then cfg.IDENTITY_VALIDATION
  else cfg.ADDRESS_VALIDATION

/-- One lifecycle step drawn from the two entry-mutating operations the
attempt-counter invariant ranges over. -/
inductive LedgerOp where
  | submit (cfg : ValidationConfig) (now : Int) (type code : String)
  | policy (cfg : ValidationConfig) (rand : Nat → Fin 10) (now : Int)

/-- The collection after one lifecycle step. -/
def applyOp (op : LedgerOp) (c : List Validation) : List Validation :=
  match op with
  | .submit cfg now type code => (validateCode cfg now type code c).2
  | .policy cfg rand now => (applyCreationPolicy cfg rand now c).1

/-- The collection after a sequence of lifecycle steps. -/
def runOps (ops : List LedgerOp) (c : List Validation) : List Validation :=
  ops.foldl (fun acc op => applyOp op acc) c

/-! ## Helper lemmas -/

/-- `validateCode` acts on the first entry of the requested type and leaves
everything around it untouched. -/
theorem validateCode_focus (cfg : ValidationConfig) (now : Int) (k code : String)
    (l1 l2 : List Validation) (e : Validation)
    (h1 : ∀ v ∈ l1, (v.type == k) = false) (h2 : (e.type == k) = true) :
    validateCode cfg now k code (l1 ++ e :: l2) =
      ((validateEntryStep cfg now code e).1,
       l1 ++ (validateEntryStep cfg now code e).2 :: l2) := by
  induction l1 with
  | nil => simp [validateCode, h2]
  | cons v rest ih =>
    have hv : (v.type == k) = false := h1 v (List.mem_cons_self v rest)
    have ih2 := ih (fun u hu => h1 u (List.mem_cons_of_mem v hu))
    simp [validateCode, hv, ih2]

/-- `validateCode` over a collection with no entry of the requested type
returns `false` and leaves the collection unchanged. -/
theorem validateCode_no_entry (cfg : ValidationConfig) (now : Int) (k code : String)
    (c : List Validation) (h : ∀ v ∈ c, (v.type == k) = false) :
    validateCode cfg now k code c = (false, c) := by
  induction c with
  | nil => rfl
  | cons v rest ih =>
    have hv : (v.type == k) = false := h v (List.mem_cons_self v rest)
    have ih2 := ih (fun u hu => h u (List.mem_cons_of_mem v hu))
    simp [validateCode, hv, ih2]

/-- Finding skips a prefix on which the predicate is everywhere false. -/
theorem find_skip_front (p : Validation → Bool) (l1 l2 : List Validation)
    (h : ∀ v ∈ l1, p v = false) :
    (l1 ++ l2).find? p = l2.find? p := by
  induction l1 with
  | nil => rfl
  | cons v rest ih =>
    have hv : p v = false := h v (List.mem_cons_self v rest)
    have ih2 := ih (fun u hu => h u (List.mem_cons_of_mem v hu))
    simp [List.find?, hv, ih2]

/-! ## Claim C1: attempt ceiling with increment-before-check -/

/-- C1: with `MAX_TRIES = n`, a live submission (entry found, not yet
validated, not expired) first increments `attemptCount` and sets
`lastAttemptAt`, and only then applies the strict limit check: the submission
raising `attemptCount` exactly to `n` is still evaluated and succeeds with
the correct code, while the submission raising it to `n + 1` returns `false`
even with the correct code, the increment and the `lastAttemptAt` update
being retained on that failing call. -/
theorem submitCode_attempt_ceiling (cfg : ValidationConfig) (now : Int)
    (k code : String) (n : Nat) (l1 l2 : List Validation) (e : Validation)
    (hl1 : ∀ v ∈ l1, (v.type == k) = false) (ht : e.type = k)
    (hv : e.validated = false) (hx : isExpired e.expire_at now = false)
    (hm : cfg.MAX_TRIES = (n : Int)) :
    (e.tries + 1 = n → e.code = code →
      validateCode cfg now k code (l1 ++ e :: l2) =
        (true, l1 ++ { e with tries := e.tries + 1, last_try := some now,
                              validated := true } :: l2)) ∧
    (e.tries = n →
      validateCode cfg now k code (l1 ++ e :: l2) =
        (false, l1 ++ { e with tries := e.tries + 1,
                               last_try := some now } :: l2)) := by
  have hbeq : (e.type == k) = true := by simp [ht]
  have hfocus := validateCode_focus cfg now k code l1 l2 e hl1 hbeq
  constructor
  · intro ha hc
    have hlim : ¬ (((e.tries + 1 : Nat) : Int) > cfg.MAX_TRIES) := by
      rw [hm, ha]; exact lt_irrefl _
    have hcode : (e.code == code) = true := by simp [hc]
    have hstep : validateEntryStep cfg now code e =
        (true, { e with tries := e.tries + 1, last_try := some now,
                        validated := true }) := by
      simp [validateEntryStep, hv, hx, hcode]
      omega
    rw [hfocus, hstep]
  · intro ha
    have hlim : (((e.tries + 1 : Nat) : Int) > cfg.MAX_TRIES) := by
      rw [hm, ha]; exact_mod_cast Nat.lt_succ_self n
    have hstep : validateEntryStep cfg now code e =
        (false, { e with tries := e.tries + 1, last_try := some now }) := by
      simp [validateEntryStep, hv, hx]
      intro h2
      exfalso
      omega
    rw [hfocus, hstep]

/-- Witness for C1 at `MAX_TRIES = 5`: an entry at 4 prior tries succeeds on
the correct code (reaching 5 tries), an entry at 5 prior tries fails on the
same correct code (reaching 6 tries, `last_try` updated). -/
theorem submitCode_attempt_ceiling_witness :
    validateCode defaultConfig 50 "email" "123"
        [{ type := "email", validated := false, code := "123", resends := 0,
           created := 0, tries := 4, expire_at := some 100 }] =
      (true, [{ type := "email", validated := true, code := "123", resends := 0,
                created := 0, last_try := some 50, tries := 5,
                expire_at := some 100 }]) ∧
    validateCode defaultConfig 50 "email" "123"
        [{ type := "email", validated := false, code := "123", resends := 0,
           created := 0, tries := 5, expire_at := some 100 }] =
      (false, [{ type := "email", validated := false, code := "123",
                 resends := 0, created := 0, last_try := some 50, tries := 6,
                 expire_at := some 100 }]) := by
  constructor
  · exact (submitCode_attempt_ceiling defaultConfig 50 "email" "123" 5 [] []
      { type := "email", validated := false, code := "123", resends := 0,
        created := 0, tries := 4, expire_at := some 100 }
      (by simp) rfl rfl (by decide) (by decide)).1 rfl rfl
  · exact (submitCode_attempt_ceiling defaultConfig 50 "email" "123" 5 [] []
      { type := "email", validated := false, code := "123", resends := 0,
        created := 0, tries := 5, expire_at := some 100 }
      (by simp) rfl rfl (by decide) (by decide)).2 rfl

/-! ## Claim C2: idempotent success short-circuit -/

/-- C2: once the entry for a kind is confirmed, `submitCode` returns `true`
and performs no mutation at all, whatever the submitted string, the supplied
time, the entry's expiry, or its attempt count; in particular repeated calls
after a success keep returning `true` and never increment `attemptCount`. -/
theorem submitCode_idempotent_after_success (cfg : ValidationConfig) (now : Int)
    (k code : String) (l1 l2 : List Validation) (e : Validation)
    (hl1 : ∀ v ∈ l1, (v.type == k) = false) (ht : e.type = k)
    (hv : e.validated = true) :
    validateCode cfg now k code (l1 ++ e :: l2) = (true, l1 ++ e :: l2) := by
  have hbeq : (e.type == k) = true := by simp [ht]
  have hstep : validateEntryStep cfg now code e = (true, e) := by
    simp [validateEntryStep, hv]
  rw [validateCode_focus cfg now k code l1 l2 e hl1 hbeq, hstep]

/-- Witness for C2: a confirmed email entry with an expired code and an
exhausted attempt counter still answers `true` to a wrong code, unchanged. -/
theorem submitCode_idempotent_after_success_witness :
    validateCode defaultConfig 99 "email" "wrong"
        [{ type := "email", validated := true, code := "123", resends := 0,
           created := 0, tries := 7, expire_at := some 1 }] =
      (true, [{ type := "email", validated := true, code := "123",
                resends := 0, created := 0, tries := 7,
                expire_at := some 1 }]) :=
  submitCode_idempotent_after_success defaultConfig 99 "email" "wrong" [] []
    { type := "email", validated := true, code := "123", resends := 0,
      created := 0, tries := 7, expire_at := some 1 }
    (by simp) rfl rfl

/-! ## Claim C3: expiry check precedes the attempt increment -/

/-- C3: an unconfirmed entry whose `expiresAt` is present and strictly
earlier than the current time makes `submitCode` return `false` with the
whole collection — in particular `attemptCount`, `confirmed` and
`lastAttemptAt` — left exactly as it was. -/
theorem submitCode_expired_unchanged (cfg : ValidationConfig) (now : Int)
    (k code : String) (l1 l2 : List Validation) (e : Validation) (t : Int)
    (hl1 : ∀ v ∈ l1, (v.type == k) = false) (ht : e.type = k)
    (hv : e.validated = false) (he : e.expire_at = some t) (hlt : t < now) :
    validateCode cfg now k code (l1 ++ e :: l2) = (false, l1 ++ e :: l2) := by
  have hbeq : (e.type == k) = true := by simp [ht]
  have hx : isExpired e.expire_at now = true := by simp [isExpired, he, hlt]
  have hstep : validateEntryStep cfg now code e = (false, e) := by
    simp [validateEntryStep, hv, hx]
  rw [validateCode_focus cfg now k code l1 l2 e hl1 hbeq, hstep]

/-- Witness for C3: an entry expired one second before `now` rejects even the
correct code and keeps its counters untouched. -/
theorem submitCode_expired_unchanged_witness :
    validateCode defaultConfig 1000 "phone" "42"
        [{ type := "phone", validated := false, code := "42", resends := 0,
           created := 0, tries := 2, expire_at := some 999 }] =
      (false, [{ type := "phone", validated := false, code := "42",
                 resends := 0, created := 0, tries := 2,
                 expire_at := some 999 }]) :=
  submitCode_expired_unchanged defaultConfig 1000 "phone" "42" [] []
    { type := "phone", validated := false, code := "42", resends := 0,
      created := 0, tries := 2, expire_at := some 999 } 999
    (by simp) rfl rfl rfl (by decide)

/-! ## Claim C4: issueRequest replaces the entry for a kind -/

/-- After removing the first entry of a type from a collection holding at
most one entry of that type, no entry of that type remains. -/
theorem removeFirstOfType_all_other (k : String) (c : List Validation)
    (hc : c.countP (fun v => v.type == k) ≤ 1) :
    ∀ v ∈ removeFirstOfType k c, (v.type == k) = false := by
  induction c with
  | nil => intro v hv; simp [removeFirstOfType] at hv
  | cons u rest ih =>
    intro v hv
    by_cases hcu : (u.type == k) = true
    · simp only [removeFirstOfType, hcu, if_true] at hv
      have hc1 : rest.countP (fun v => v.type == k) + 1 ≤ 1 := by
        simpa [List.countP_cons, hcu] using hc
      have hz : rest.countP (fun v => v.type == k) = 0 := by omega
      have := List.countP_eq_zero.mp hz v hv
      simpa using this
    · have hcu2 : (u.type == k) = false := by simpa using hcu
      simp only [removeFirstOfType, hcu2, if_false] at hv
      rcases List.mem_cons.mp hv with h | h
      · rw [h]; exact hcu2
      · have hc2 : rest.countP (fun v => v.type == k) ≤ 1 := by
          rw [List.countP_cons, hcu2] at hc
          simpa using hc
        exact ih hc2 v h

/-- Core replacement property shared by the one-call and two-call parts of
the claim: with at most one prior entry of the kind, the collection returned
by `createValidationRequest` holds exactly one entry of that kind and that
kind is not validated. -/
theorem createValidationRequest_fresh_state (rand : Nat → Fin 10) (now : Int)
    (k : String) (opts : Option ValidationOptions) (c : List Validation)
    (hc : c.countP (fun v => v.type == k) ≤ 1) :
    ((createValidationRequest rand now k opts c).2.countP
        (fun v => v.type == k) = 1) ∧
    isValidated (createValidationRequest rand now k opts c).2 k = false := by
  have hall := removeFirstOfType_all_other k c hc
  have hz : (removeFirstOfType k c).countP (fun v => v.type == k) = 0 :=
    List.countP_eq_zero.mpr (fun v hv => by simp [hall v hv])
  have hty : ((createValidation rand now k opts false).type == k) = true := by
    simp [createValidation]
  constructor
  · show ((removeFirstOfType k c ++ [createValidation rand now k opts false]).countP
      (fun v => v.type == k) = 1)
    rw [List.countP_append, hz, List.countP_cons, hty]
    rfl
  · show isValidated
      (removeFirstOfType k c ++ [createValidation rand now k opts false]) k = false
    unfold isValidated
    rw [find_skip_front _ _ _ hall]
    simp [List.find?_cons, hty, createValidation]

/-- C4 counterexample: on a collection already holding two email entries (the
second one confirmed), one `issueRequest` leaves two email entries and
`isConfirmed` stays true, because `createValidationRequest` splices out only
the first match. -/
theorem issueRequest_duplicate_counterexample :
    ((createValidationRequest (fun _ => (0 : Fin 10)) 0 "email" none
        [{ type := "email", validated := false, code := "1", resends := 0,
           created := 0, tries := 0, expire_at := some 5 },
         { type := "email", validated := true, code := "2", resends := 0,
           created := 0, tries := 0, expire_at := some 5 }]).2.countP
      (fun v => v.type == "email") = 2) ∧
    isValidated
      ((createValidationRequest (fun _ => (0 : Fin 10)) 0 "email" none
        [{ type := "email", validated := false, code := "1", resends := 0,
           created := 0, tries := 0, expire_at := some 5 },
         { type := "email", validated := true, code := "2", resends := 0,
           created := 0, tries := 0, expire_at := some 5 }]).2) "email" = true := by
  constructor <;> rfl

/-- C4 (amended): on a collection holding at most one entry for the kind — the
data-model invariant — `issueRequest` removes that entry (discarding its
attempt/resend history), appends a fresh unconfirmed entry with
`attemptCount = 0` and `resendCount = 0`, and returns it; after one or two
such calls exactly one entry for the kind exists and `isConfirmed` is false. -/
theorem issueRequest_replaces_entry (rand : Nat → Fin 10) (now : Int)
    (k : String) (opts : Option ValidationOptions) (c : List Validation)
    (hc : c.countP (fun v => v.type == k) ≤ 1) :
    ((createValidationRequest rand now k opts c).1.tries = 0) ∧
    ((createValidationRequest rand now k opts c).1.resends = 0) ∧
    ((createValidationRequest rand now k opts c).1.validated = false) ∧
    ((createValidationRequest rand now k opts c).1.type = k) ∧
    ((createValidationRequest rand now k opts c).2 =
      removeFirstOfType k c ++ [(createValidationRequest rand now k opts c).1]) ∧
    ((createValidationRequest rand now k opts c).2.countP
        (fun v => v.type == k) = 1) ∧
    (isValidated (createValidationRequest rand now k opts c).2 k = false) ∧
    (∀ (rand2 : Nat → Fin 10) (now2 : Int) (opts2 : Option ValidationOptions),
      ((createValidationRequest rand2 now2 k opts2
          (createValidationRequest rand now k opts c).2).2.countP
        (fun v => v.type == k) = 1) ∧
      isValidated (createValidationRequest rand2 now2 k opts2
          (createValidationRequest rand now k opts c).2).2 k = false) := by
  have h1 := createValidationRequest_fresh_state rand now k opts c hc
  refine ⟨rfl, rfl, rfl, rfl, rfl, h1.1, h1.2, ?_⟩
  intro rand2 now2 opts2
  exact createValidationRequest_fresh_state rand2 now2 k opts2 _ (le_of_eq h1.1)

/-- Witness for C4 at a one-entry phone collection. -/
theorem issueRequest_replaces_entry_witness :
    ((createValidationRequest (fun _ => (0 : Fin 10)) 0 "phone" none
        [{ type := "phone", validated := true, code := "", resends := 2,
           created := 0, tries := 3 }]).2.countP
      (fun v => v.type == "phone") = 1) ∧
    isValidated
      ((createValidationRequest (fun _ => (0 : Fin 10)) 0 "phone" none
        [{ type := "phone", validated := true, code := "", resends := 2,
           created := 0, tries := 3 }]).2) "phone" = false :=
  ⟨(issueRequest_replaces_entry (fun _ => (0 : Fin 10)) 0 "phone" none
      [{ type := "phone", validated := true, code := "", resends := 2,
         created := 0, tries := 3 }] (by decide)).2.2.2.2.2.1,
   (issueRequest_replaces_entry (fun _ => (0 : Fin 10)) 0 "phone" none
      [{ type := "phone", validated := true, code := "", resends := 2,
         created := 0, tries := 3 }] (by decide)).2.2.2.2.2.2.1⟩

/-! ## Claim C5: per-request option consumption in buildEntry -/

/-- C5 counterexample: requesting `expiresIn = 0` does not yield an entry
expiring at its creation time; the JS `||` fallback treats `0` as absent, so
the entry gets the default one-hour TTL instead. -/
theorem buildEntry_zero_ttl_counterexample :
    ((createValidation (fun _ => (0 : Fin 10)) 0 "email"
        (some { expiresIn := some 0 }) false).expire_at = some 3600000) ∧
    ((createValidation (fun _ => (0 : Fin 10)) 0 "email"
        (some { expiresIn := some 0 }) false).expire_at ≠ some 0) := by
  exact ⟨rfl, by decide⟩

/-- C5 (amended): `createValidation` uses `options.codeLength` and
`options.expiresIn` whenever they are provided and nonzero, and falls back to
the package defaults when they are absent or zero; `calculateExpiry` itself
does treat a zero TTL as immediate expiry, but an entry requested with
`expiresIn = 0` gets the default TTL, not immediate expiry. -/
theorem buildEntry_option_fallback (rand : Nat → Fin 10) (now : Int)
    (k : String) (o : ValidationOptions) :
    (calculateExpiry now 0 = now) ∧
    (∀ d, o.expiresIn = some d → d ≠ 0 →
      (createValidation rand now k (some o) false).expire_at =
        some (now + d * 1000)) ∧
    ((o.expiresIn = none ∨ o.expiresIn = some 0) →
      (createValidation rand now k (some o) false).expire_at =
        some (now + defaultConfig.DEFAULT_EXPIRY * 1000)) ∧
    (∀ l, o.codeLength = some l → l ≠ 0 →
      (createValidation rand now k (some o) false).code =
        generateValidationCode rand l) ∧
    ((o.codeLength = none ∨ o.codeLength = some 0) →
      (createValidation rand now k (some o) false).code =
        generateValidationCode rand defaultConfig.DEFAULT_CODE_LENGTH) ∧
    (∀ l : Int, (generateValidationCode rand l).length = l.toNat) := by
  refine ⟨by simp [calculateExpiry], ?_, ?_, ?_, ?_, ?_⟩
  · intro d hd hne
    simp [createValidation, jsOrInt, hd, hne, calculateExpiry]
  · rintro (h | h) <;> simp [createValidation, jsOrInt, h, calculateExpiry]
  · intro l hl hne
    simp [createValidation, jsOrInt, hl, hne]
  · rintro (h | h) <;> simp [createValidation, jsOrInt, h]
  · intro l
    show (String.mk ((List.range l.toNat).map
      (fun i => digitChar (rand i)))).length = l.toNat
    simp [String.length]

/-- Witness for C5: a nonzero `expiresIn = 7` and `codeLength = 3` are both
consumed. -/
theorem buildEntry_option_fallback_witness :
    ((createValidation (fun _ => (0 : Fin 10)) 5 "phone"
        (some { expiresIn := some 7, codeLength := some 3 }) false).expire_at =
      some (5 + 7 * 1000)) ∧
    ((createValidation (fun _ => (0 : Fin 10)) 5 "phone"
        (some { expiresIn := some 7, codeLength := some 3 }) false).code =
      generateValidationCode (fun _ => (0 : Fin 10)) 3) :=
  ⟨(buildEntry_option_fallback (fun _ => (0 : Fin 10)) 5 "phone"
      { expiresIn := some 7, codeLength := some 3 }).2.1 7 rfl (by decide),
   (buildEntry_option_fallback (fun _ => (0 : Fin 10)) 5 "phone"
      { expiresIn := some 7, codeLength := some 3 }).2.2.2.1 3 rfl (by decide)⟩

/-! ## Claim C6: kinds outside the enumeration -/

/-- Removing a type that occurs nowhere in the collection is a no-op. -/
theorem removeFirstOfType_absent (k : String) (c : List Validation)
    (h : ∀ v ∈ c, (v.type == k) = false) :
    removeFirstOfType k c = c := by
  induction c with
  | nil => rfl
  | cons v rest ih =>
    have hv : (v.type == k) = false := h v (List.mem_cons_self v rest)
    have ih2 := ih (fun u hu => h u (List.mem_cons_of_mem v hu))
    simp [removeFirstOfType, hv, ih2]

/-- C6 counterexample: at runtime a kind outside the enumeration is handled
silently — `validateCode` returns the ordinary value `false` and
`createValidationRequest` happily builds and returns an entry of the unknown
kind; neither signals an invalid-argument condition. -/
theorem unknownKind_silent_counterexample :
    ("username" ∉ validationKinds) ∧
    validateCode defaultConfig 0 "username" "1234" [] = (false, []) ∧
    (createValidationRequest (fun _ => (0 : Fin 10)) 0 "username" none []).2 =
      [createValidation (fun _ => (0 : Fin 10)) 0 "username" none false] := by
  exact ⟨by decide, rfl, rfl⟩

/-- C6 (amended): a `kind` outside the fixed enumeration is rejected only
statically by the TypeScript type; at runtime `submitCode` silently returns
`false` (no entry of that kind can match) and `issueRequest` silently appends
and returns an entry carrying the unknown kind — no invalid-argument
condition is signalled. -/
theorem unknownKind_silent_behavior (cfg : ValidationConfig)
    (rand : Nat → Fin 10) (now : Int) (k code : String)
    (opts : Option ValidationOptions) (c : List Validation)
    (hk : k ∉ validationKinds) (hc : ∀ v ∈ c, (v.type == k) = false) :
    validateCode cfg now k code c = (false, c) ∧
    (createValidationRequest rand now k opts c).2 =
      c ++ [createValidation rand now k opts false] ∧
    (createValidationRequest rand now k opts c).1.type = k := by
  refine ⟨validateCode_no_entry cfg now k code c hc, ?_, rfl⟩
  show removeFirstOfType k c ++ [createValidation rand now k opts false] = _
  rw [removeFirstOfType_absent k c hc]

/-- Witness for C6 at the unknown kind `"nickname"` over a one-entry email
collection. -/
theorem unknownKind_silent_behavior_witness :
    validateCode defaultConfig 3 "nickname" "77"
        [{ type := "email", validated := false, code := "77", resends := 0,
           created := 0, tries := 0, expire_at := some 9 }] =
      (false,
       [{ type := "email", validated := false, code := "77", resends := 0,
          created := 0, tries := 0, expire_at := some 9 }]) ∧
    (createValidationRequest (fun _ => (0 : Fin 10)) 3 "nickname" none
        [{ type := "email", validated := false, code := "77", resends := 0,
           created := 0, tries := 0, expire_at := some 9 }]).2 =
      [{ type := "email", validated := false, code := "77", resends := 0,
         created := 0, tries := 0, expire_at := some 9 }] ++
        [createValidation (fun _ => (0 : Fin 10)) 3 "nickname" none false] ∧
    (createValidationRequest (fun _ => (0 : Fin 10)) 3 "nickname" none
        [{ type := "email", validated := false, code := "77", resends := 0,
           created := 0, tries := 0, expire_at := some 9 }]).1.type =
      "nickname" :=
  unknownKind_silent_behavior defaultConfig (fun _ => (0 : Fin 10)) 3
    "nickname" "77" none
    [{ type := "email", validated := false, code := "77", resends := 0,
       created := 0, tries := 0, expire_at := some 9 }]
    (by decide) (by decide)

/-! ## Lemmas about the pre-save auto-validation blocks -/

/-- An appended entry on which the predicate is false never affects `find?`. -/
theorem find_append_last_irrelevant (p : Validation → Bool)
    (c : List Validation) (e : Validation) (he : p e = false) :
    (c ++ [e]).find? p = c.find? p := by
  induction c with
  | nil => simp [List.find?, he]
  | cons v rest ih =>
    by_cases hv : p v = true
    · simp [List.find?_cons, hv]
    · have hv2 : p v = false := by simpa using hv
      simp [List.find?_cons, hv2, ih]

/-- Appending an entry of the requested type to a collection with no entry of
that type makes `find?` return exactly the appended entry. -/
theorem find_append_new (k : String) (c : List Validation) (e : Validation)
    (hnone : c.find? (fun v => v.type == k) = none)
    (ht : (e.type == k) = true) :
    (c ++ [e]).find? (fun v => v.type == k) = some e := by
  have hall : ∀ v ∈ c, (v.type == k) = false := by
    intro v hv
    have := List.find?_eq_none.mp hnone v hv
    simpa using this
  rw [find_skip_front _ _ _ hall]
  simp [List.find?_cons, ht]

/-- Flipping `validated` on the first entry of one type does not change what
`find?` sees for a different type. -/
theorem setValidatedFirst_find_other (k2 k : String) (h : (k2 == k) = false)
    (c : List Validation) :
    (setValidatedFirst k2 c).find? (fun v => v.type == k) =
      c.find? (fun v => v.type == k) := by
  induction c with
  | nil => rfl
  | cons v rest ih =>
    by_cases hv : (v.type == k2) = true
    · have hvk : (v.type == k) = false := by
        have hvt : v.type = k2 := by simpa using hv
        rw [hvt]; exact h
      simp [setValidatedFirst, hv, List.find?_cons, hvk]
    · have hv2 : (v.type == k2) = false := by simpa using hv
      by_cases hpk : (v.type == k) = true
      · simp [setValidatedFirst, hv2, List.find?_cons, hpk]
      · have hpk2 : (v.type == k) = false := by simpa using hpk
        simp [setValidatedFirst, hv2, List.find?_cons, hpk2, ih]

/-- One auto-validation block for a kind other than `k` does not change what
`find?` sees for kind `k`, whatever its flag and the prior state. -/
theorem autoValidateKind_find_other (rand : Nat → Fin 10) (now : Int)
    (flag : Bool) (k2 k : String) (h : (k2 == k) = false)
    (st : List Validation × Bool) :
    (autoValidateKind rand now flag k2 st).1.find? (fun v => v.type == k) =
      st.1.find? (fun v => v.type == k) := by
  by_cases hf : flag = true
  · simp [autoValidateKind, hf]
  · have hf2 : flag = false := by simpa using hf
    cases hfind : st.1.find? (fun v => v.type == k2) with
    | none =>
      have hty : (createValidation rand now k2 none true).type ≠ k := by
        simpa [createValidation] using h
      simp [autoValidateKind, hf2, hfind, hty]
    | some v =>
      by_cases hval : v.validated = true
      · simp [autoValidateKind, hf2, hfind, hval]
      · have hval2 : v.validated = false := by simpa using hval
        simp [autoValidateKind, hf2, hfind, hval2,
          setValidatedFirst_find_other k2 k h]

/-- One auto-validation block never resets `hasChanges`. -/
theorem autoValidateKind_changed_true (rand : Nat → Fin 10) (now : Int)
    (flag : Bool) (k2 : String) (st : List Validation × Bool)
    (h : st.2 = true) :
    (autoValidateKind rand now flag k2 st).2 = true := by
  unfold autoValidateKind
  split
  · exact h
  · split
    · rfl
    · split
      · exact h
      · rfl

/-- A block whose flag demands validation is a no-op. -/
theorem autoValidateKind_skip (rand : Nat → Fin 10) (now : Int) (k2 : String)
    (st : List Validation × Bool) :
    autoValidateKind rand now true k2 st = st := rfl

/-- A block with its flag off and no entry of its kind appends a
pre-validated entry and reports a change. -/
theorem autoValidateKind_absent (rand : Nat → Fin 10) (now : Int) (k : String)
    (st : List Validation × Bool)
    (hnone : st.1.find? (fun v => v.type == k) = none) :
    autoValidateKind rand now false k st =
      (st.1 ++ [createValidation rand now k none true], true) := by
  simp [autoValidateKind, hnone]

/-- A block with its flag off and an unvalidated entry of its kind flips that
entry in place and reports a change. -/
theorem autoValidateKind_flip (rand : Nat → Fin 10) (now : Int) (k : String)
    (st : List Validation × Bool) (v : Validation)
    (hfind : st.1.find? (fun u => u.type == k) = some v)
    (hv : v.validated = false) :
    autoValidateKind rand now false k st = (setValidatedFirst k st.1, true) := by
  simp [autoValidateKind, hfind, hv]

/-- `setValidatedFirst` on a collection split around its first entry of the
type rebuilds the same collection with only that entry's `validated` set. -/
theorem setValidatedFirst_focus (k : String) (l1 l2 : List Validation)
    (e : Validation) (hl1 : ∀ v ∈ l1, (v.type == k) = false)
    (ht : (e.type == k) = true) :
    setValidatedFirst k (l1 ++ e :: l2) =
      l1 ++ { e with validated := true } :: l2 := by
  induction l1 with
  | nil => simp [setValidatedFirst, ht]
  | cons v rest ih =>
    have hv : (v.type == k) = false := hl1 v (List.mem_cons_self v rest)
    have ih2 := ih (fun u hu => hl1 u (List.mem_cons_of_mem v hu))
    simp [setValidatedFirst, hv, ih2]

/-! ## Claim C7: auto-confirm appends a pre-validated entry -/

/-- C7 counterexample: with the master switch off (`ENABLED = false`) but
`EMAIL_VALIDATION = false` and no email entry, the creation hook appends
nothing and reports no change, contrary to the claim's unconditional
append-and-report. -/
theorem applyCreationPolicy_disabled_counterexample :
    applyCreationPolicy
        { defaultConfig with ENABLED := false, EMAIL_VALIDATION := false }
        (fun _ => (0 : Fin 10)) 0 [] = ([], false) := rfl

/-- C7 (amended): with the plugin enabled, for every kind whose per-kind
validation flag is false and every collection with no entry of that kind,
the creation hook adds a pre-validated entry for that kind — `confirmed`
true, empty code, no expiry, zero attempt and resend counters — and reports
that a change occurred. -/
theorem applyCreationPolicy_autoconfirm (cfg : ValidationConfig)
    (rand : Nat → Fin 10) (now : Int) (k : String) (c : List Validation)
    (hEn : cfg.ENABLED = true) (hk : k ∈ validationKinds)
    (hflag : kindFlag cfg k = false)
    (hnone : c.find? (fun v => v.type == k) = none) :
    ((applyCreationPolicy cfg rand now c).2 = true) ∧
    ((applyCreationPolicy cfg rand now c).1.find? (fun v => v.type == k) =
      some (createValidation rand now k none true)) ∧
    ((createValidation rand now k none true).validated = true) ∧
    ((createValidation rand now k none true).code = "") ∧
    ((createValidation rand now k none true).expire_at = none) ∧
    ((createValidation rand now k none true).tries = 0) ∧
    ((createValidation rand now k none true).resends = 0) := by
  have hkcases : k = "email" ∨ k = "phone" ∨ k = "identity" ∨ k = "address" := by
    simpa [validationKinds] using hk
  have hpol : applyCreationPolicy cfg rand now c =
      autoValidateKind rand now cfg.ADDRESS_VALIDATION "address"
        (autoValidateKind rand now cfg.IDENTITY_VALIDATION "identity"
          (autoValidateKind rand now cfg.PHONE_VALIDATION "phone"
            (autoValidateKind rand now cfg.EMAIL_VALIDATION "email"
              (c, false)))) := by
    simp [applyCreationPolicy, hEn]
  have hmain : ((applyCreationPolicy cfg rand now c).2 = true) ∧
      ((applyCreationPolicy cfg rand now c).1.find? (fun v => v.type == k) =
        some (createValidation rand now k none true)) := by
    rcases hkcases with rfl | rfl | rfl | rfl
    · -- k = "email"
      have hf : cfg.EMAIL_VALIDATION = false := hflag
      rw [hpol, hf,
        autoValidateKind_absent rand now "email" (c, false) hnone]
      constructor
      · exact autoValidateKind_changed_true _ _ _ _ _
          (autoValidateKind_changed_true _ _ _ _ _
            (autoValidateKind_changed_true _ _ _ _ _ rfl))
      · rw [autoValidateKind_find_other rand now cfg.ADDRESS_VALIDATION
            "address" "email" rfl _,
          autoValidateKind_find_other rand now cfg.IDENTITY_VALIDATION
            "identity" "email" rfl _,
          autoValidateKind_find_other rand now cfg.PHONE_VALIDATION
            "phone" "email" rfl _]
        exact find_append_new "email" c _ hnone (by simp [createValidation])
    · -- k = "phone"
      have hf : cfg.PHONE_VALIDATION = false := hflag
      have h1 : (autoValidateKind rand now cfg.EMAIL_VALIDATION "email"
          (c, false)).1.find? (fun v => v.type == "phone") = none := by
        rw [autoValidateKind_find_other rand now cfg.EMAIL_VALIDATION
          "email" "phone" rfl (c, false)]
        exact hnone
      rw [hpol, hf, autoValidateKind_absent rand now "phone"
        (autoValidateKind rand now cfg.EMAIL_VALIDATION "email" (c, false)) h1]
      constructor
      · exact autoValidateKind_changed_true _ _ _ _ _
          (autoValidateKind_changed_true _ _ _ _ _ rfl)
      · rw [autoValidateKind_find_other rand now cfg.ADDRESS_VALIDATION
            "address" "phone" rfl _,
          autoValidateKind_find_other rand now cfg.IDENTITY_VALIDATION
            "identity" "phone" rfl _]
        exact find_append_new "phone" _ _ h1 (by simp [createValidation])
    · -- k = "identity"
      have hf : cfg.IDENTITY_VALIDATION = false := hflag
      have h1 : (autoValidateKind rand now cfg.PHONE_VALIDATION "phone"
          (autoValidateKind rand now cfg.EMAIL_VALIDATION "email"
            (c, false))).1.find? (fun v => v.type == "identity") = none := by
        rw [autoValidateKind_find_other rand now cfg.PHONE_VALIDATION
            "phone" "identity" rfl _,
          autoValidateKind_find_other rand now cfg.EMAIL_VALIDATION
            "email" "identity" rfl (c, false)]
        exact hnone
      rw [hpol, hf, autoValidateKind_absent rand now "identity"
        (autoValidateKind rand now cfg.PHONE_VALIDATION "phone"
          (autoValidateKind rand now cfg.EMAIL_VALIDATION "email"
            (c, false))) h1]
      constructor
      · exact autoValidateKind_changed_true _ _ _ _ _ rfl
      · rw [autoValidateKind_find_other rand now cfg.ADDRESS_VALIDATION
          "address" "identity" rfl _]
        exact find_append_new "identity" _ _ h1 (by simp [createValidation])
    · -- k = "address"
      have hf : cfg.ADDRESS_VALIDATION = false := hflag
      have h1 : (autoValidateKind rand now cfg.IDENTITY_VALIDATION "identity"
          (autoValidateKind rand now cfg.PHONE_VALIDATION "phone"
            (autoValidateKind rand now cfg.EMAIL_VALIDATION "email"
              (c, false)))).1.find? (fun v => v.type == "address") = none := by
        rw [autoValidateKind_find_other rand now cfg.IDENTITY_VALIDATION
            "identity" "address" rfl _,
          autoValidateKind_find_other rand now cfg.PHONE_VALIDATION
            "phone" "address" rfl _,
          autoValidateKind_find_other rand now cfg.EMAIL_VALIDATION
            "email" "address" rfl (c, false)]
        exact hnone
      rw [hpol, hf, autoValidateKind_absent rand now "address"
        (autoValidateKind rand now cfg.IDENTITY_VALIDATION "identity"
          (autoValidateKind rand now cfg.PHONE_VALIDATION "phone"
            (autoValidateKind rand now cfg.EMAIL_VALIDATION "email"
              (c, false)))) h1]
      exact ⟨rfl, find_append_new "address" _ _ h1 (by simp [createValidation])⟩
  exact ⟨hmain.1, hmain.2, rfl, rfl, rfl, rfl, rfl⟩

/-- Witness for C7: phone validation disabled, empty collection. -/
theorem applyCreationPolicy_autoconfirm_witness :
    ((applyCreationPolicy { defaultConfig with PHONE_VALIDATION := false }
        (fun _ => (0 : Fin 10)) 4 []).2 = true) ∧
    ((applyCreationPolicy { defaultConfig with PHONE_VALIDATION := false }
        (fun _ => (0 : Fin 10)) 4 []).1.find? (fun v => v.type == "phone") =
      some (createValidation (fun _ => (0 : Fin 10)) 4 "phone" none true)) :=
  ⟨(applyCreationPolicy_autoconfirm
      { defaultConfig with PHONE_VALIDATION := false }
      (fun _ => (0 : Fin 10)) 4 "phone" [] rfl (by decide) rfl rfl).1,
   (applyCreationPolicy_autoconfirm
      { defaultConfig with PHONE_VALIDATION := false }
      (fun _ => (0 : Fin 10)) 4 "phone" [] rfl (by decide) rfl rfl).2.1⟩

/-! ## Claim C8: flipping an existing entry touches nothing else -/

/-- C8 counterexample: with email and phone validation both disabled, an
unconfirmed email entry qualifies for the claim, yet the hook also flips the
phone entry — an entry of another kind is not left unchanged. -/
theorem applyCreationPolicy_other_kind_changed_counterexample :
    ((applyCreationPolicy
        { defaultConfig with EMAIL_VALIDATION := false,
                             PHONE_VALIDATION := false }
        (fun _ => (0 : Fin 10)) 0
        [{ type := "email", validated := false, code := "1", resends := 0,
           created := 0, tries := 0, expire_at := some 9 },
         { type := "phone", validated := false, code := "2", resends := 0,
           created := 0, tries := 0, expire_at := some 9 }]).1 =
      [{ type := "email", validated := true, code := "1", resends := 0,
         created := 0, tries := 0, expire_at := some 9 },
       { type := "phone", validated := true, code := "2", resends := 0,
         created := 0, tries := 0, expire_at := some 9 }]) ∧
    ((applyCreationPolicy
        { defaultConfig with EMAIL_VALIDATION := false,
                             PHONE_VALIDATION := false }
        (fun _ => (0 : Fin 10)) 0
        [{ type := "email", validated := false, code := "1", resends := 0,
           created := 0, tries := 0, expire_at := some 9 },
         { type := "phone", validated := false, code := "2", resends := 0,
           created := 0, tries := 0, expire_at := some 9 }]).1.find?
        (fun v => v.type == "phone") ≠
      some { type := "phone", validated := false, code := "2", resends := 0,
             created := 0, tries := 0, expire_at := some 9 }) := by
  exact ⟨rfl, by decide⟩

/-- C8 (amended): with the plugin enabled and every other kind's validation
flag enabled, a kind whose flag is disabled and whose first entry exists
unconfirmed gets exactly that entry's `confirmed` flipped in place: every
other field of the entry, every other entry, and the order of the collection
are unchanged, and a change is reported. -/
theorem applyCreationPolicy_flip_frame (cfg : ValidationConfig)
    (rand : Nat → Fin 10) (now : Int) (k : String)
    (l1 l2 : List Validation) (e : Validation)
    (hEn : cfg.ENABLED = true) (hk : k ∈ validationKinds)
    (hflag : kindFlag cfg k = false)
    (hothers : ∀ k2 ∈ validationKinds, k2 ≠ k → kindFlag cfg k2 = true)
    (hl1 : ∀ v ∈ l1, (v.type == k) = false)
    (ht : e.type = k) (hv : e.validated = false) :
    applyCreationPolicy cfg rand now (l1 ++ e :: l2) =
      (l1 ++ { e with validated := true } :: l2, true) := by
  have hkcases : k = "email" ∨ k = "phone" ∨ k = "identity" ∨ k = "address" := by
    simpa [validationKinds] using hk
  have hpol : applyCreationPolicy cfg rand now (l1 ++ e :: l2) =
      autoValidateKind rand now cfg.ADDRESS_VALIDATION "address"
        (autoValidateKind rand now cfg.IDENTITY_VALIDATION "identity"
          (autoValidateKind rand now cfg.PHONE_VALIDATION "phone"
            (autoValidateKind rand now cfg.EMAIL_VALIDATION "email"
              (l1 ++ e :: l2, false)))) := by
    simp [applyCreationPolicy, hEn]
  have hbeq : (e.type == k) = true := by simp [ht]
  have hfind : (l1 ++ e :: l2).find? (fun u => u.type == k) = some e := by
    rw [find_skip_front _ _ _ hl1]
    simp [List.find?_cons, hbeq]
  have hset : setValidatedFirst k (l1 ++ e :: l2) =
      l1 ++ { e with validated := true } :: l2 :=
    setValidatedFirst_focus k l1 l2 e hl1 hbeq
  rcases hkcases with rfl | rfl | rfl | rfl
  · -- k = "email"
    have hf : cfg.EMAIL_VALIDATION = false := hflag
    have hfP : cfg.PHONE_VALIDATION = true :=
      hothers "phone" (by simp [validationKinds]) (by decide)
    have hfI : cfg.IDENTITY_VALIDATION = true :=
      hothers "identity" (by simp [validationKinds]) (by decide)
    have hfA : cfg.ADDRESS_VALIDATION = true :=
      hothers "address" (by simp [validationKinds]) (by decide)
    rw [hpol, hf, hfP, hfI, hfA]
    simp only [autoValidateKind_skip]
    rw [autoValidateKind_flip rand now "email" (l1 ++ e :: l2, false) e
      hfind hv]
    rw [hset]
  · -- k = "phone"
    have hf : cfg.PHONE_VALIDATION = false := hflag
    have hfE : cfg.EMAIL_VALIDATION = true :=
      hothers "email" (by simp [validationKinds]) (by decide)
    have hfI : cfg.IDENTITY_VALIDATION = true :=
      hothers "identity" (by simp [validationKinds]) (by decide)
    have hfA : cfg.ADDRESS_VALIDATION = true :=
      hothers "address" (by simp [validationKinds]) (by decide)
    rw [hpol, hf, hfE, hfI, hfA]
    simp only [autoValidateKind_skip]
    rw [autoValidateKind_flip rand now "phone" (l1 ++ e :: l2, false) e
      hfind hv]
    rw [hset]
  · -- k = "identity"
    have hf : cfg.IDENTITY_VALIDATION = false := hflag
    have hfE : cfg.EMAIL_VALIDATION = true :=
      hothers "email" (by simp [validationKinds]) (by decide)
    have hfP : cfg.PHONE_VALIDATION = true :=
      hothers "phone" (by simp [validationKinds]) (by decide)
    have hfA : cfg.ADDRESS_VALIDATION = true :=
      hothers "address" (by simp [validationKinds]) (by decide)
    rw [hpol, hf, hfE, hfP, hfA]
    simp only [autoValidateKind_skip]
    rw [autoValidateKind_flip rand now "identity" (l1 ++ e :: l2, false) e
      hfind hv]
    rw [hset]
  · -- k = "address"
    have hf : cfg.ADDRESS_VALIDATION = false := hflag
    have hfE : cfg.EMAIL_VALIDATION = true :=
      hothers "email" (by simp [validationKinds]) (by decide)
    have hfP : cfg.PHONE_VALIDATION = true :=
      hothers "phone" (by simp [validationKinds]) (by decide)
    have hfI : cfg.IDENTITY_VALIDATION = true :=
      hothers "identity" (by simp [validationKinds]) (by decide)
    rw [hpol, hf, hfE, hfP, hfI]
    simp only [autoValidateKind_skip]
    rw [autoValidateKind_flip rand now "address" (l1 ++ e :: l2, false) e
      hfind hv]
    rw [hset]

/-- Witness for C8: only identity validation disabled; an unconfirmed
identity entry between an email and an address entry is flipped in place
with everything else untouched. -/
theorem applyCreationPolicy_flip_frame_witness :
    applyCreationPolicy { defaultConfig with IDENTITY_VALIDATION := false }
        (fun _ => (0 : Fin 10)) 11
        [{ type := "email", validated := true, code := "1", resends := 0,
           created := 0, tries := 2, expire_at := some 9 },
         { type := "identity", validated := false, code := "2", resends := 1,
           created := 3, tries := 4, expire_at := some 9,
           metadata := some [("documentType", "passport")] },
         { type := "address", validated := true, code := "3", resends := 0,
           created := 0, tries := 0, expire_at := some 9 }] =
      ([{ type := "email", validated := true, code := "1", resends := 0,
          created := 0, tries := 2, expire_at := some 9 },
        { type := "identity", validated := true, code := "2", resends := 1,
          created := 3, tries := 4, expire_at := some 9,
          metadata := some [("documentType", "passport")] },
        { type := "address", validated := true, code := "3", resends := 0,
          created := 0, tries := 0, expire_at := some 9 }], true) :=
  applyCreationPolicy_flip_frame
    { defaultConfig with IDENTITY_VALIDATION := false }
    (fun _ => (0 : Fin 10)) 11 "identity"
    [{ type := "email", validated := true, code := "1", resends := 0,
       created := 0, tries := 2, expire_at := some 9 }]
    [{ type := "address", validated := true, code := "3", resends := 0,
       created := 0, tries := 0, expire_at := some 9 }]
    { type := "identity", validated := false, code := "2", resends := 1,
      created := 3, tries := 4, expire_at := some 9,
      metadata := some [("documentType", "passport")] }
    rfl (by decide) rfl
    (by intro k2 hk2 hne
        simp [validationKinds] at hk2
        rcases hk2 with rfl | rfl | rfl | rfl
        · rfl
        · rfl
        · exact absurd rfl hne
        · rfl)
    (by decide) rfl rfl

/-! ## Claim C9: the attempt counter never decreases -/

/-- The per-entry state machine of `validateCode` never lowers `tries`. -/
theorem validateEntryStep_tries_le (cfg : ValidationConfig) (now : Int)
    (code : String) (v : Validation) :
    v.tries ≤ (validateEntryStep cfg now code v).2.tries := by
  by_cases h1 : v.validated = true
  · simp [validateEntryStep, h1]
  · by_cases h2 : isExpired v.expire_at now = true
    · simp [validateEntryStep, h1, h2]
    · by_cases h3 : cfg.MAX_TRIES < ((v.tries : Int) + 1)
      · simp [validateEntryStep, h1, h2, h3]
      · by_cases h4 : (v.code == code) = true
        · simp [validateEntryStep, h1, h2, h3, h4]
        · simp [validateEntryStep, h1, h2, h3, h4]

/-- One `submitCode` call keeps every position of the collection and never
lowers any entry's attempt counter. -/
theorem validateCode_tries_le (cfg : ValidationConfig) (now : Int)
    (k code : String) (c : List Validation) (i : Nat) (v : Validation)
    (h : c.get? i = some v) :
    ∃ w, ((validateCode cfg now k code c).2).get? i = some w ∧
      v.tries ≤ w.tries := by
  induction c generalizing i with
  | nil => simp at h
  | cons u rest ih =>
    by_cases hu : (u.type == k) = true
    · cases i with
      | zero =>
        have hv : u = v := by simpa using h
        subst hv
        exact ⟨(validateEntryStep cfg now code u).2,
          by simp [validateCode, hu], validateEntryStep_tries_le cfg now code u⟩
      | succ n =>
        refine ⟨v, ?_, le_refl _⟩
        simp only [validateCode, hu, if_true]
        simpa using h
    · have hu2 : (u.type == k) = false := by simpa using hu
      cases i with
      | zero =>
        have hv : u = v := by simpa using h
        subst hv
        refine ⟨u, ?_, le_refl _⟩
        simp [validateCode, hu2]
      | succ n =>
        obtain ⟨w, hw, hle⟩ := ih n (by simpa using h)
        refine ⟨w, ?_, hle⟩
        simp only [validateCode, hu2, Bool.false_eq_true, if_false]
        simpa using hw

/-- `setValidatedFirst` keeps every position and every attempt counter. -/
theorem setValidatedFirst_tries_le (k : String) (c : List Validation)
    (i : Nat) (v : Validation) (h : c.get? i = some v) :
    ∃ w, (setValidatedFirst k c).get? i = some w ∧ v.tries ≤ w.tries := by
  induction c generalizing i with
  | nil => simp at h
  | cons u rest ih =>
    by_cases hu : (u.type == k) = true
    · cases i with
      | zero =>
        have hv : u = v := by simpa using h
        subst hv
        exact ⟨{ u with validated := true },
          by simp [setValidatedFirst, hu], le_refl _⟩
      | succ n =>
        refine ⟨v, ?_, le_refl _⟩
        simp only [setValidatedFirst, hu, if_true]
        simpa using h
    · have hu2 : (u.type == k) = false := by simpa using hu
      cases i with
      | zero =>
        have hv : u = v := by simpa using h
        subst hv
        refine ⟨u, ?_, le_refl _⟩
        simp [setValidatedFirst, hu2]
      | succ n =>
        obtain ⟨w, hw, hle⟩ := ih n (by simpa using h)
        refine ⟨w, ?_, hle⟩
        simp only [setValidatedFirst, hu2, Bool.false_eq_true, if_false]
        simpa using hw

/-- One auto-validation block keeps every existing position and never lowers
any attempt counter. -/
theorem autoValidateKind_tries_le (rand : Nat → Fin 10) (now : Int)
    (flag : Bool) (k2 : String) (st : List Validation × Bool) (i : Nat)
    (v : Validation) (h : st.1.get? i = some v) :
    ∃ w, ((autoValidateKind rand now flag k2 st).1).get? i = some w ∧
      v.tries ≤ w.tries := by
  by_cases hf : flag = true
  · refine ⟨v, ?_, le_refl _⟩
    simp only [autoValidateKind, hf, if_true]
    exact h
  · have hf2 : flag = false := by simpa using hf
    cases hfind : st.1.find? (fun u => u.type == k2) with
    | none =>
      refine ⟨v, ?_, le_refl _⟩
      have hlt : i < st.1.length := by
        rcases List.get?_eq_some.mp h with ⟨hl, _⟩
        exact hl
      simp only [autoValidateKind, hf2, Bool.false_eq_true, if_false, hfind]
      rw [List.get?_append hlt]
      exact h
    | some u =>
      by_cases hval : u.validated = true
      · refine ⟨v, ?_, le_refl _⟩
        simp only [autoValidateKind, hf2, Bool.false_eq_true, if_false, hfind,
          hval, if_true]
        exact h
      · have hval2 : u.validated = false := by simpa using hval
        obtain ⟨w, hw, hle⟩ := setValidatedFirst_tries_le k2 st.1 i v h
        refine ⟨w, ?_, hle⟩
        simp only [autoValidateKind, hf2, Bool.false_eq_true, if_false, hfind,
          hval2, if_true]
        exact hw

/-- One run of the creation hook keeps every existing position and never
lowers any attempt counter. -/
theorem applyCreationPolicy_tries_le (cfg : ValidationConfig)
    (rand : Nat → Fin 10) (now : Int) (c : List Validation) (i : Nat)
    (v : Validation) (h : c.get? i = some v) :
    ∃ w, ((applyCreationPolicy cfg rand now c).1).get? i = some w ∧
      v.tries ≤ w.tries := by
  by_cases hEn : cfg.ENABLED = true
  · obtain ⟨w1, h1, le1⟩ := autoValidateKind_tries_le rand now
      cfg.EMAIL_VALIDATION "email" (c, false) i v h
    obtain ⟨w2, h2, le2⟩ := autoValidateKind_tries_le rand now
      cfg.PHONE_VALIDATION "phone"
      (autoValidateKind rand now cfg.EMAIL_VALIDATION "email" (c, false))
      i w1 h1
    obtain ⟨w3, h3, le3⟩ := autoValidateKind_tries_le rand now
      cfg.IDENTITY_VALIDATION "identity"
      (autoValidateKind rand now cfg.PHONE_VALIDATION "phone"
        (autoValidateKind rand now cfg.EMAIL_VALIDATION "email" (c, false)))
      i w2 h2
    obtain ⟨w4, h4, le4⟩ := autoValidateKind_tries_le rand now
      cfg.ADDRESS_VALIDATION "address"
      (autoValidateKind rand now cfg.IDENTITY_VALIDATION "identity"
        (autoValidateKind rand now cfg.PHONE_VALIDATION "phone"
          (autoValidateKind rand now cfg.EMAIL_VALIDATION "email"
            (c, false))))
      i w3 h3
    refine ⟨w4, ?_, le_trans le1 (le_trans le2 (le_trans le3 le4))⟩
    simp only [applyCreationPolicy, hEn, if_true]
    exact h4
  · have hEn2 : cfg.ENABLED = false := by simpa using hEn
    refine ⟨v, ?_, le_refl _⟩
    simp only [applyCreationPolicy, hEn2, Bool.false_eq_true, if_false]
    exact h

/-- One lifecycle step keeps every existing position and never lowers any
attempt counter. -/
theorem applyOp_tries_le (op : LedgerOp) (c : List Validation) (i : Nat)
    (v : Validation) (h : c.get? i = some v) :
    ∃ w, (applyOp op c).get? i = some w ∧ v.tries ≤ w.tries := by
  cases op with
  | submit cfg now t code => exact validateCode_tries_le cfg now t code c i v h
  | policy cfg rand now => exact applyCreationPolicy_tries_le cfg rand now c i v h

/-- Sequences of lifecycle steps keep every existing position and never lower
any attempt counter. -/
theorem runOps_tries_le (ops : List LedgerOp) (c : List Validation) (i : Nat)
    (v : Validation) (h : c.get? i = some v) :
    ∃ w, (runOps ops c).get? i = some w ∧ v.tries ≤ w.tries := by
  induction ops generalizing c v with
  | nil => exact ⟨v, h, le_refl _⟩
  | cons op rest ih =>
    obtain ⟨w1, h1, le1⟩ := applyOp_tries_le op c i v h
    obtain ⟨w2, h2, le2⟩ := ih (applyOp op c) w1 h1
    exact ⟨w2, h2, le_trans le1 le2⟩

/-- C9: across any sequence of `submitCode` and creation-hook steps, every
entry stays at its position and its `attemptCount` never decreases; the only
way back to zero is the fresh entry produced by `issueRequest`, whose
`attemptCount` is 0. -/
theorem attemptCount_never_decreases (ops : List LedgerOp)
    (c : List Validation) (i : Nat) (v : Validation) (h : c.get? i = some v) :
    (∃ w, (runOps ops c).get? i = some w ∧ v.tries ≤ w.tries) ∧
    (∀ (rand : Nat → Fin 10) (now : Int) (k : String)
       (opts : Option ValidationOptions) (c2 : List Validation),
      (createValidationRequest rand now k opts c2).1.tries = 0) :=
  ⟨runOps_tries_le ops c i v h, fun _ _ _ _ _ => rfl⟩

/-- Witness for C9: a submission step followed by a creation-hook step never
lowers the counter of the tracked entry. -/
theorem attemptCount_never_decreases_witness :
    (∃ w, (runOps
        [LedgerOp.submit defaultConfig 5 "email" "9",
         LedgerOp.policy defaultConfig (fun _ => (0 : Fin 10)) 9]
        [{ type := "email", validated := false, code := "1", resends := 0,
           created := 0, tries := 1, expire_at := some 99 }]).get? 0 =
        some w ∧
      ({ type := "email", validated := false, code := "1", resends := 0,
         created := 0, tries := 1,
         expire_at := some 99 } : Validation).tries ≤ w.tries) ∧
    (∀ (rand : Nat → Fin 10) (now : Int) (k : String)
       (opts : Option ValidationOptions) (c2 : List Validation),
      (createValidationRequest rand now k opts c2).1.tries = 0) :=
  attemptCount_never_decreases
    [LedgerOp.submit defaultConfig 5 "email" "9",
     LedgerOp.policy defaultConfig (fun _ => (0 : Fin 10)) 9]
    [{ type := "email", validated := false, code := "1", resends := 0,
       created := 0, tries := 1, expire_at := some 99 }]
    0
    { type := "email", validated := false, code := "1", resends := 0,
      created := 0, tries := 1, expire_at := some 99 }
    rfl

/-! ## Claim C10: non-positive code lengths -/

/-- C10 counterexample: an entry requested with `codeLength = 0` does not get
an empty code — the JS `||` fallback replaces 0 by the default length 6, so
the code has six digits. -/
theorem zero_codeLength_counterexample :
    ((createValidation (fun _ => (0 : Fin 10)) 0 "email"
        (some { codeLength := some 0 }) false).code = "000000") ∧
    ((createValidation (fun _ => (0 : Fin 10)) 0 "email"
        (some { codeLength := some 0 }) false).code ≠ "") := by
  exact ⟨rfl, by decide⟩

/-- C10 (amended): `generateValidationCode` is total over all integer
lengths and returns the empty string for every length ≤ 0; an entry built
with a negative `codeLength` has an empty code while still unconfirmed,
whereas `codeLength = 0` falls back to the default length and yields a
six-digit code. -/
theorem generateCode_nonpositive_total (rand : Nat → Fin 10) (now : Int)
    (k : String) (l : Int) :
    (l ≤ 0 → generateValidationCode rand l = "") ∧
    (l < 0 →
      ((createValidation rand now k
          (some { codeLength := some l }) false).code = "" ∧
       (createValidation rand now k
          (some { codeLength := some l }) false).validated = false)) ∧
    ((createValidation rand now k
        (some { codeLength := some (0 : Int) }) false).code.length = 6) := by
  have hz : ∀ m : Int, m ≤ 0 → generateValidationCode rand m = "" := by
    intro m hm
    have hm0 : m.toNat = 0 := Int.toNat_of_nonpos hm
    unfold generateValidationCode
    rw [hm0]
    rfl
  refine ⟨hz l, ?_, ?_⟩
  · intro hneg
    have hne : l ≠ 0 := by omega
    constructor
    · simp [createValidation, jsOrInt, hne, hz l (le_of_lt hneg)]
    · rfl
  · show (generateValidationCode rand
      (jsOrInt (some (0 : Int)) defaultConfig.DEFAULT_CODE_LENGTH)).length = 6
    rfl

/-- Witness for C10 at length `-2`. -/
theorem generateCode_nonpositive_total_witness :
    (generateValidationCode (fun _ => (0 : Fin 10)) (-2) = "") ∧
    ((createValidation (fun _ => (0 : Fin 10)) 0 "address"
        (some { codeLength := some (-2) }) false).code = "") :=
  ⟨(generateCode_nonpositive_total (fun _ => (0 : Fin 10)) 0 "address"
      (-2)).1 (by decide),
   ((generateCode_nonpositive_total (fun _ => (0 : Fin 10)) 0 "address"
      (-2)).2.1 (by decide)).1⟩

end UserValidation
